import Mathlib

/-
Verification of the magmatic Lavalink client library.

This file gives a shallow embedding, in Lean 4, of the parts of the
`magmatic` Python package that the checked claims are about:

* `src/magmatic/enums.py` — the `OpCode`, `EventType`, `LoadType`,
  `Source`, `LoadSource`, `ErrorSeverity` and `TrackEndReason` enums;
* `src/magmatic/node.py` — `ConnectionManager.handle_message`,
  `ConnectionManager.connect` / `send_resume`, `ConnectionManager.request`,
  `Node._load_tracks`, `Node.fetch_track` / `fetch_tracks`;
* `src/magmatic/track.py` — `Track.__init__`, `Playlist.seek` and
  `Playlist.selected_track`.

Modelling conventions:

* Python dictionaries produced by `json.loads` are modelled by association
  lists of `String × JVal` with unique keys; numeric JSON payload values
  are modelled as integers (no claim depends on float payloads).
* Exceptions are modelled with `Except`: a raised exception is an
  `Except.error` carrying a constructor naming the Python exception class.
  Side effects performed before an exception is raised are not recorded in
  a trace returned through `Except.error`.
* Coroutines are modelled as pure functions returning the ordered trace
  of externally visible actions they perform (log calls, websocket sends,
  dispatches); `await` sequencing is list order.
* The network is modelled by explicit response oracles passed as
  arguments (one `HttpResponse` per attempt for the REST layer, a
  response per identifier for the `loadtracks` endpoint).
-/

namespace Magmatic

/-! ## Enums (src/magmatic/enums.py) -/

/-- Inbound op-codes (`OpCode` in enums.py).  The Python enum has three
distinct values: `stats`, `event` and `playerUpdate` (with `update` as an
alias of `playerUpdate`, i.e. the same member). -/
inductive OpCode
  | stats
  | event
  | player_update
deriving DecidableEq, Repr

/-- Event sub-types (`EventType` in enums.py). -/
inductive EventType
  | track_start
  | track_end
  | track_stuck
  | track_exception
  | websocket_closed
deriving DecidableEq, Repr

/-- Load-response types (`LoadType` in enums.py); `track`, `playlist` and
`search` are aliases of the first three members. -/
inductive LoadType
  | track_loaded
  | playlist_loaded
  | search_result
  | no_matches
  | load_failed
deriving DecidableEq, Repr

/-- Search sources (`Source` in enums.py). -/
inductive Source
  | youtube
  | youtube_music
  | soundcloud
  | spotify
  | local
deriving DecidableEq, Repr

/-- The `value` of each `Source` member, used as the search prefix token. -/
def Source.value : Source → String
  | .youtube => "ytsearch"
  | .youtube_music => "ytmsearch"
  | .soundcloud => "scsearch"
  | .spotify => "spotify"
  | .local => "local"

/-- Load sources of already-loaded tracks (`LoadSource` in enums.py). -/
inductive LoadSource
  | youtube
  | soundcloud
  | spotify
  | twitch
  | bandcamp
  | vimeo
  | beam
  | nico
  | getyarn
  | local
  | http
  | stream
deriving DecidableEq, Repr

/-- Parses a `LoadSource` from its string value, as the Python call
`LoadSource(s)` does (`none` models the `ValueError` branch). -/
def LoadSource.ofValue : String → Option LoadSource
  | "youtube" => some .youtube
  | "soundcloud" => some .soundcloud
  | "spotify" => some .spotify
  | "twitch" => some .twitch
  | "bandcamp" => some .bandcamp
  | "vimeo" => some .vimeo
  | "beam" => some .beam
  | "nico" => some .nico
  | "getyarn.io" => some .getyarn
  | "local" => some .local
  | "http" => some .http
  | "stream" => some .stream
  | _ => none

/-- Error severities (`ErrorSeverity` in enums.py). -/
inductive ErrorSeverity
  | common
  | suspicious
  | fault
deriving DecidableEq, Repr

/-- Parses an `ErrorSeverity` from its string value (`ErrorSeverity(s)`). -/
def ErrorSeverity.ofValue : String → Option ErrorSeverity
  | "COMMON" => some .common
  | "SUSPICIOUS" => some .suspicious
  | "FAULT" => some .fault
  | _ => none

/-- Track-end reasons (`TrackEndReason` in enums.py). -/
inductive TrackEndReason
  | finished
  | load_failed
  | stopped
  | replaced
  | cleanup
deriving DecidableEq, Repr

/-- Parses a `TrackEndReason` from its string value (`TrackEndReason(s)`). -/
def TrackEndReason.ofValue : String → Option TrackEndReason
  | "FINISHED" => some .finished
  | "LOAD_FAILED" => some .load_failed
  | "STOPPED" => some .stopped
  | "REPLACED" => some .replaced
  | "CLEANUP" => some .cleanup
  | _ => none

/-- The `may_start_next` property of `TrackEndReason` (enums.py lines
215-218): `self is TrackEndReason.finished or self is TrackEndReason.load_failed`. -/
def TrackEndReason.may_start_next (r : TrackEndReason) : Bool :=
  r = TrackEndReason.finished ∨ r = TrackEndReason.load_failed

/-- C7: `TrackEndReason.may_start_next` is true exactly for the `finished`
and `load_failed` variants; `stopped`, `replaced` and `cleanup` all have
`may_start_next == false`. -/
theorem trackEndReason_may_start_next_spec :
    TrackEndReason.finished.may_start_next = true ∧
    TrackEndReason.load_failed.may_start_next = true ∧
    TrackEndReason.stopped.may_start_next = false ∧
    TrackEndReason.replaced.may_start_next = false ∧
    TrackEndReason.cleanup.may_start_next = false := by
  decide

/-! ## JSON values and Python-dict helpers -/

/-- A JSON value, as produced by `json.loads`.  Numeric values are
modelled as integers; objects are association lists with unique keys. -/
inductive JVal
  | null
  | bool (b : Bool)
  | num (n : Int)
  | str (s : String)
  | arr (xs : List JVal)
  | obj (fields : List (String × JVal))

/-- Looks a key up in a Python dict, modelled as an association list with
unique keys (`data[key]` returns `some`, a missing key is `none`). -/
def jlookup (fields : List (String × JVal)) (key : String) : Option JVal :=
  (fields.find? (fun p => p.1 == key)).map (·.2)

/-- Python exception classes that escape the modelled code. -/
inductive PyErr
  | keyError (key : String)
  | valueError
  | typeError
  | indexError
deriving DecidableEq, Repr

/-- Digit string to natural number, most significant digit first. -/
def digitsToNat (ds : List Char) : Nat :=
  ds.foldl (fun a c => a * 10 + (c.toNat - '0'.toNat)) 0

/-- Python `int(x)` applied to a string: optional surrounding whitespace,
an optional sign, then a non-empty digit string (digit-group underscores
are not needed by any claim and are left out). -/
def pyIntOfString (s : String) : Option Int :=
  let cs := ((s.toList.dropWhile Char.isWhitespace).reverse.dropWhile
    Char.isWhitespace).reverse
  let (sign, ds) : Int × List Char :=
    match cs with
    | '-' :: rest => (-1, rest)
    | '+' :: rest => (1, rest)
    | _ => (1, cs)
  if ds ≠ [] ∧ ds.all Char.isDigit then some (sign * (digitsToNat ds : Int))
  else none

/-- Python `int(x)` on a JSON value: numbers pass through, booleans become
0/1, numeric strings are parsed (`ValueError` otherwise), and any other
value is a `TypeError`. -/
def pyInt : JVal → Except PyErr Int
  | .num n => .ok n
  | .bool b => .ok (if b then 1 else 0)
  | .str s =>
    match pyIntOfString s with
    | some n => .ok n
    | none => .error .valueError
  | _ => .error .typeError

/-! ## Track loading (src/magmatic/node.py, Node._load_tracks) -/

/-- Test for the two characters stripped by `query.strip('<>')`. -/
def isAngleChar (c : Char) : Bool :=
  c == '<' || c == '>'

/-- Python `query.strip('<>')`: removes every leading and trailing
character that is `<` or `>`. -/
def stripAngle (s : String) : String :=
  String.mk (((s.toList.dropWhile isAngleChar).reverse.dropWhile
    isAngleChar).reverse)

/-- Consumes the scheme `http://` or `https://` (the `https?://` part of
`Node.URL_REGEX`) from the front of a character list. -/
def urlSchemeTail : List Char → Option (List Char)
  | 'h' :: 't' :: 't' :: 'p' :: 's' :: ':' :: '/' :: '/' :: rest => some rest
  | 'h' :: 't' :: 't' :: 'p' :: ':' :: '/' :: '/' :: rest => some rest
  | _ => none

/-- The match test of `Node.URL_REGEX`, the compiled pattern
`^https?://(?:www\.)?.+` used via `re.match` (node.py line 532).  The
pattern matches exactly when the string starts with `http://` or
`https://` and the remainder is non-empty with a first character other
than a newline: the `(?:www\.)?` group is optional, and whenever its
`www.` branch can consume characters the empty branch also succeeds with
`.+` consuming the `w`, so the group adds no strings to the language. -/
def urlRegexMatches (s : String) : Bool :=
  match urlSchemeTail s.toList with
  | some (c :: _) => c != '\n'
  | _ => false

/-- Errors raised by `Node._load_tracks`. -/
inductive LoadErr
  | notImplementedSpotify
  | noMatches (query : String) (source : Option Source)
  | loadFailed (message : String) (severity : ErrorSeverity)
deriving DecidableEq, Repr

/-- The source/query adjustment performed by `Node._load_tracks` before
the request (node.py lines 825-837): spotify raises `NotImplementedError`;
the local pseudo-source is dropped; with `strict = false` the source is
dropped when the angle-bracket-stripped query matches `URL_REGEX`; a
remaining source prefixes the query with `value:`.  The second component
of the result is the identifier sent to the `loadtracks` endpoint. -/
def adjustSource (query : String) (source : Option Source) (strict : Bool) :
    Except LoadErr (Option Source × String) :=
  if source = some Source.spotify then
    .error .notImplementedSpotify
  else
    let source := if source = some Source.local then none else source
    let source :=
      if source.isSome && !strict && urlRegexMatches (stripAngle query) then none
      else source
    match source with
    | some s => .ok (some s, s.value ++ ":" ++ query)
    | none => .ok (none, query)

/-- A well-typed response of the `loadtracks` endpoint, keyed by the
fields `Node._load_tracks` reads: `loadType`, `tracks`, `playlistInfo`
and (for failures) `exception.message` / `exception.severity`. -/
structure LoadResponse where
  loadType : LoadType
  tracks : List JVal
  playlistInfo : JVal
  exceptionMessage : String
  exceptionSeverity : ErrorSeverity

/-- The body of `Node._load_tracks` (node.py lines 819-854): adjust the
source and query, send the resulting identifier to the `loadtracks`
endpoint (modelled by the oracle `server`), then classify the response by
its load type.  `NoMatches` is raised with the local variables `query` and
`source` as they stand after the adjustment. -/
def load_tracks (server : String → LoadResponse) (query : String)
    (source : Option Source) (strict : Bool) :
    Except LoadErr (Option JVal × List JVal) :=
  match adjustSource query source strict with
  | .error e => .error e
  | .ok (source, query) =>
    let results := server query
    match results.loadType with
    | .no_matches => .error (.noMatches query source)
    | .load_failed => .error (.loadFailed results.exceptionMessage results.exceptionSeverity)
    | .playlist_loaded => .ok (some results.playlistInfo, results.tracks)
    | _ => .ok (none, results.tracks)

/-- C1: with a non-`none` source other than spotify/local and
`strict = true` the identifier sent to `loadtracks` is `value:query`;
with `strict = false` and a URL-shaped query (after stripping angle
brackets) every source other than the spotify pseudo-source is dropped and
the raw query is sent, and any call that does send an identifier sends
exactly the raw query. -/
theorem load_tracks_source_prefixing
    (S : Source) (q : String) (src : Option Source) :
    (S ≠ Source.spotify → S ≠ Source.local →
      adjustSource q (some S) true = .ok (some S, S.value ++ ":" ++ q)) ∧
    (urlRegexMatches (stripAngle q) = true →
      (src ≠ some Source.spotify → adjustSource q src false = .ok (none, q)) ∧
      (∀ s' r, adjustSource q src false = .ok (s', r) → r = q)) := by
  refine ⟨fun hs hl => ?_, fun hurl => ⟨fun hs => ?_, fun s' r h => ?_⟩⟩
  · simp [adjustSource, hs, hl]
  · rcases src with _ | s
    · simp [adjustSource]
    · have hs : s ≠ Source.spotify := fun hc => hs (by rw [hc])
      by_cases hl : s = Source.local
      · simp [adjustSource, hs, hl]
      · simp [adjustSource, hs, hl, hurl]
  · rcases src with _ | s
    · simp [adjustSource] at h
      exact h.2.symm
    · by_cases hsp : s = Source.spotify
      · simp [adjustSource, hsp] at h
      · by_cases hl : s = Source.local
        · simp [adjustSource, hsp, hl] at h
          exact h.2.symm
        · simp [adjustSource, hsp, hl, hurl] at h
          exact h.2.symm

/-- Witness for C1 at concrete inputs: `source = youtube`, `strict = true`,
query `"q"` yields identifier `"ytsearch:q"`; `source = soundcloud`,
`strict = false`, query `"<https://www.example.com/x>"` yields the raw
query unprefixed. -/
theorem load_tracks_source_prefixing_witness :
    adjustSource "q" (some Source.youtube) true
      = .ok (some Source.youtube, "ytsearch:q") ∧
    adjustSource "<https://www.example.com/x>" (some Source.soundcloud) false
      = .ok (none, "<https://www.example.com/x>") := by
  refine ⟨(load_tracks_source_prefixing Source.youtube "q" none).1
      (by decide) (by decide), ?_⟩
  exact ((load_tracks_source_prefixing Source.youtube "<https://www.example.com/x>"
      (some Source.soundcloud)).2 (by decide)).1 (by decide)

/-- C6 counterexample: calling `_load_tracks` with query `"q"`, source
youtube and `strict = true` against a node replying `NO_MATCHES` raises
`NoMatches` whose query attribute is the rewritten identifier
`"ytsearch:q"`, not the original query `"q"` — `query` is reassigned to
the prefixed form (node.py line 837) before `NoMatches(self, query,
source)` is raised (line 843). -/
theorem load_tracks_noMatches_query_counterexample :
    load_tracks (fun _ => ⟨LoadType.no_matches, [], JVal.null, "", ErrorSeverity.common⟩)
      "q" (some Source.youtube) true
      = .error (.noMatches "ytsearch:q" (some Source.youtube)) ∧
    "ytsearch:q" ≠ "q" := by
  exact ⟨rfl, by decide⟩

/-- C6 amended: when the node responds `NO_MATCHES`, `_load_tracks`
raises `NoMatches` carrying the *effective* identifier that was sent
(the query with any source prefix applied) and the *effective* source
after the local/URL adjustments, not the caller's original arguments. -/
theorem load_tracks_noMatches_carries_sent_query
    (server : String → LoadResponse) (q : String) (src : Option Source)
    (strict : Bool) (s' : Option Source) (q' : String)
    (hadj : adjustSource q src strict = .ok (s', q'))
    (hlt : (server q').loadType = LoadType.no_matches) :
    load_tracks server q src strict = .error (.noMatches q' s') := by
  simp only [load_tracks, hadj]
  rw [hlt]

/-- Witness for C6's amended theorem at the counterexample's input. -/
theorem load_tracks_noMatches_carries_sent_query_witness :
    load_tracks (fun _ => ⟨LoadType.no_matches, [], JVal.null, "", ErrorSeverity.common⟩)
      "q" (some Source.youtube) true
      = .error (.noMatches "ytsearch:q" (some Source.youtube)) :=
  load_tracks_noMatches_carries_sent_query _ "q" (some Source.youtube) true
    (some Source.youtube) "ytsearch:q" rfl rfl

/-! ## REST requests (src/magmatic/node.py, ConnectionManager.request) -/

/-- An HTTP response as seen by `ConnectionManager.request`: its status
code and its JSON body. -/
structure HttpResponse where
  status : Nat
  body : JVal

/-- The `ok` property of an `aiohttp.ClientResponse`, tested at node.py
line 500: true exactly when the status code is less than 400. -/
def HttpResponse.respOk (r : HttpResponse) : Bool :=
  r.status < 400

/-- Errors raised by `ConnectionManager.request`: `NotFound` for an
exhausted final attempt with status 404, `HTTPException` otherwise, and
the `RuntimeError` raised when `REQUEST_MAX_TRIES` is below 1 (node.py
line 513).  The failing response is carried in the error. -/
inductive ReqError
  | notFound (resp : HttpResponse)
  | httpException (resp : HttpResponse)
  | runtimeError

/-- The retry loop of `ConnectionManager.request` (node.py lines
498-513): attempt `i` receives `resps i`; a response with `ok` returns
its body; otherwise, if attempts remain, back off and retry, else raise
`NotFound`/`HTTPException` carrying the last response. -/
def requestAux (resps : Nat → HttpResponse) (i : Nat) : Nat → Except ReqError JVal
  | 0 => .error .runtimeError
  | fuel + 1 =>
    let r := resps i
    if r.respOk then .ok r.body
    else if fuel = 0 then
      if r.status = 404 then .error (.notFound r) else .error (.httpException r)
    else
      requestAux resps (i + 1) fuel

/-- `ConnectionManager.request` with `REQUEST_MAX_TRIES = maxTries`,
where `resps` gives the response each attempt would receive. -/
def ConnectionManager.request (maxTries : Nat) (resps : Nat → HttpResponse) :
    Except ReqError JVal :=
  requestAux resps 0 maxTries

theorem requestAux_ok_of_first_ok (resps : Nat → HttpResponse) :
    ∀ fuel i j, j < fuel → (resps (i + j)).respOk = true →
    (∀ k, k < j → (resps (i + k)).respOk = false) →
    requestAux resps i fuel = .ok (resps (i + j)).body := by
  intro fuel
  induction fuel with
  | zero => exact fun i j hj _ _ => absurd hj (Nat.not_lt_zero j)
  | succ fuel ih =>
    intro i j hj hok hbefore
    cases j with
    | zero =>
      rw [Nat.add_zero] at hok ⊢
      simp [requestAux, hok]
    | succ j =>
      have h0 : (resps i).respOk = false := by
        have := hbefore 0 (Nat.succ_pos j)
        rwa [Nat.add_zero] at this
      have hfuel : fuel ≠ 0 := by omega
      have hrec := ih (i + 1) j (by omega)
        (by rwa [show i + 1 + j = i + (j + 1) by omega])
        (fun k hk => by
          have := hbefore (k + 1) (by omega)
          rwa [show i + (k + 1) = i + 1 + k by omega] at this)
      simp [requestAux, h0, hfuel]
      rw [show i + 1 + j = i + (j + 1) by omega] at hrec
      exact hrec

theorem requestAux_error_of_all_bad (resps : Nat → HttpResponse) :
    ∀ fuel i, 1 ≤ fuel → (∀ k, k < fuel → (resps (i + k)).respOk = false) →
    requestAux resps i fuel =
      (if (resps (i + fuel - 1)).status = 404
       then .error (.notFound (resps (i + fuel - 1)))
       else .error (.httpException (resps (i + fuel - 1)))) := by
  intro fuel
  induction fuel with
  | zero => omega
  | succ fuel ih =>
    intro i _ hall
    have h0 : (resps i).respOk = false := by
      have := hall 0 (Nat.succ_pos fuel)
      rwa [Nat.add_zero] at this
    by_cases hf : fuel = 0
    · subst hf
      simp [requestAux, h0]
    · have hrec := ih (i + 1) (Nat.one_le_iff_ne_zero.2 hf)
        (fun k hk => by
          have := hall (k + 1) (by omega)
          rwa [show i + (k + 1) = i + 1 + k by omega] at this)
      simp [requestAux, h0, hf]
      rw [show i + 1 + fuel - 1 = i + (fuel + 1) - 1 by omega] at hrec
      exact hrec

/-- C5 counterexample: with the default retry budget of one attempt, a
response with status 304 (not a 2xx status) is returned as a success —
`aiohttp`'s `response.ok` is `status < 400`, so 3xx responses are neither
retried nor raised, contradicting the claim that a final non-2xx response
raises `NotFound`/`HTTPException`. -/
theorem request_304_counterexample :
    ConnectionManager.request 1 (fun _ => ⟨304, JVal.str "cached"⟩)
      = .ok (JVal.str "cached") ∧ ¬(304 < 300) := by
  exact ⟨rfl, by decide⟩

/-- C5 amended: with "non-2xx" corrected to "non-ok" (status ≥ 400, the
test `aiohttp` performs): non-ok responses are retried up to `maxTries`
total attempts; the first attempt receiving an ok response (status < 400,
which includes every 2xx response) returns its JSON body with no error;
and if every attempt's response is non-ok, the call raises `NotFound`
when the final response's status is 404 and `HTTPException` otherwise,
each carrying that last response. -/
theorem request_retry_spec (maxTries : Nat) (resps : Nat → HttpResponse) :
    (∀ j, j < maxTries → (resps j).respOk = true →
      (∀ k, k < j → (resps k).respOk = false) →
      ConnectionManager.request maxTries resps = .ok (resps j).body) ∧
    (1 ≤ maxTries → (∀ k, k < maxTries → (resps k).respOk = false) →
      ConnectionManager.request maxTries resps =
        (if (resps (maxTries - 1)).status = 404
         then .error (.notFound (resps (maxTries - 1)))
         else .error (.httpException (resps (maxTries - 1))))) := by
  constructor
  · intro j hj hok hbefore
    have := requestAux_ok_of_first_ok resps maxTries 0 j hj
      (by rwa [Nat.zero_add]) (fun k hk => by rw [Nat.zero_add]; exact hbefore k hk)
    rwa [Nat.zero_add] at this
  · intro h1 hall
    have := requestAux_error_of_all_bad resps maxTries 0 h1
      (fun k hk => by rw [Nat.zero_add]; exact hall k hk)
    rwa [Nat.zero_add] at this

/-- Witness for C5's amended theorem: the spec's own scenario — a retry
budget of 3 where the first two attempts return HTTP 500 and the third
returns 200 — yields the successful JSON body with no error surfaced. -/
theorem request_retry_spec_witness :
    ConnectionManager.request 3
      (fun n => if n < 2 then ⟨500, JVal.null⟩ else ⟨200, JVal.str "body"⟩)
      = .ok (JVal.str "body") := by
  exact (request_retry_spec 3
      (fun n => if n < 2 then ⟨500, JVal.null⟩ else ⟨200, JVal.str "body"⟩)).1
    2 (by decide) (by decide)
    (fun k hk => by interval_cases k <;> decide)

/-! ## Playlists (src/magmatic/track.py, Playlist) -/

/-- A playlist (track.py): its track list, name, and the mutable
`selected_track_index` (`-1` meaning no selection).  The track type is a
parameter; nothing in `seek` inspects the tracks themselves. -/
structure Playlist (τ : Type) where
  tracks : List τ
  name : String
  selected_track_index : Int

/-- Python list indexing `l[i]`: non-negative indices from the front,
negative indices from the back, `none` modelling `IndexError`. -/
def pyIndex {τ : Type} (l : List τ) (i : Int) : Option τ :=
  let j : Int := if i < 0 then (l.length : Int) + i else i
  if 0 ≤ j then l.get? j.toNat else none

/-- The `selected_track` property (track.py lines 277-286): `none` when
the index is `-1`, otherwise `self[self.selected_track_index]`, whose
list access raises `IndexError` when the index is out of range. -/
def Playlist.selected_track {τ : Type} (p : Playlist τ) : Except PyErr (Option τ) :=
  if p.selected_track_index = -1 then .ok none
  else
    match pyIndex p.tracks p.selected_track_index with
    | some t => .ok (some t)
    | none => .error .indexError

/-- `Playlist.seek` (track.py lines 310-329): assigns
`selected_track_index := index` first, then evaluates `selected_track`;
a `none` selection raises `IndexError`, and an out-of-range list access
inside the property raises `IndexError` as well.  Returns the updated
playlist together with the result. -/
def Playlist.seek {τ : Type} (p : Playlist τ) (index : Int) :
    Playlist τ × Except PyErr τ :=
  let p' := { p with selected_track_index := index }
  match p'.selected_track with
  | .error e => (p', .error e)
  | .ok none => (p', .error .indexError)
  | .ok (some t) => (p', .ok t)

/-- C10: for every playlist and every index that is `-1` or out of range
(in the Python sense: `index ≥ len` or `index < -len`), `seek` raises
`IndexError`, yet `selected_track_index` has already been set to the
given index, so the playlist's selection state changes even though the
call fails. -/
theorem playlist_seek_not_atomic {τ : Type} (p : Playlist τ) (index : Int)
    (h : index = -1 ∨ (p.tracks.length : Int) ≤ index ∨
      index < -(p.tracks.length : Int)) :
    (p.seek index).2 = .error .indexError ∧
    (p.seek index).1.selected_track_index = index := by
  have hfst : (p.seek index).1.selected_track_index = index := by
    unfold Playlist.seek
    simp only []
    split <;> rfl
  refine ⟨?_, hfst⟩
  unfold Playlist.seek Playlist.selected_track
  by_cases h1 : index = -1
  · simp [h1]
  · have hrange : pyIndex p.tracks index = none := by
      unfold pyIndex
      rcases h with h | h | h
      · exact absurd h h1
      · have hnn : ¬ index < 0 := by omega
        rw [if_neg hnn]
        rw [if_pos (by omega)]
        exact List.get?_eq_none.2 (by omega)
      · have hneg : index < 0 := by omega
        rw [if_pos hneg]
        rw [if_neg (by omega)]
    simp [h1, hrange]

/-- Witness for C10: seeking index 5 in a two-track playlist raises
`IndexError` while leaving `selected_track_index` set to 5. -/
theorem playlist_seek_not_atomic_witness :
    ((⟨["a", "b"], "pl", 0⟩ : Playlist String).seek 5).2 = .error .indexError ∧
    ((⟨["a", "b"], "pl", 0⟩ : Playlist String).seek 5).1.selected_track_index = 5 :=
  playlist_seek_not_atomic (⟨["a", "b"], "pl", 0⟩ : Playlist String) 5
    (by right; left; decide)

/-! ## Tracks (src/magmatic/track.py, Track.__init__) -/

/-- Python truthiness of a JSON value, as tested by
`if source := data.get('sourceName'):`. -/
def jTruthy : JVal → Bool
  | .null => false
  | .bool b => b
  | .num n => n != 0
  | .str s => s.length != 0
  | .arr xs => !xs.isEmpty
  | .obj fs => !fs.isEmpty

/-- Python `data.get(key)`: `none` both for a missing key and for a key
mapped to `null` (both give `None` in Python). -/
def pyGet (fields : List (String × JVal)) (key : String) : Option JVal :=
  match jlookup fields key with
  | some .null => none
  | v => v

/-- Python `data.get(key, default)`. -/
def pyGetD (fields : List (String × JVal)) (key : String) (dflt : JVal) : JVal :=
  (jlookup fields key).getD dflt

/-- Python `data[key]`, raising `KeyError` when the key is missing. -/
def requireKey (fields : List (String × JVal)) (key : String) : Except PyErr JVal :=
  match jlookup fields key with
  | some v => .ok v
  | none => .error (.keyError key)

/-- A JSON value used in numeric arithmetic (such as `x / 1000`):
numbers pass, booleans coerce to 0/1, anything else is a `TypeError`. -/
def pyNum : JVal → Except PyErr Int
  | .num n => .ok n
  | .bool b => .ok (if b then 1 else 0)
  | _ => .error .typeError

/-- A track value object (track.py `Track`).  `lengthMs`/`positionMs`
keep the raw millisecond fields whose division by 1000 yields the
float `duration`/`position` attributes; `stream`/`seekable` keep the raw
values stored by `__init__`. -/
structure Track where
  id : String
  title : JVal
  author : Option JVal
  uri : Option JVal
  identifier : Option JVal
  lengthMs : Int
  positionMs : Option Int
  source : Option LoadSource
  stream : JVal
  seekable : JVal

/-- The `position` handling of `Track.__init__` (track.py lines 101-104):
a missing or `null` position stays `None`; a present one is divided by
1000, which requires a number. -/
def trackPosition (fs : List (String × JVal)) : Except PyErr (Option Int) :=
  match jlookup fs "position" with
  | none => .ok none
  | some .null => .ok none
  | some v => (pyNum v).map some

/-- The `sourceName` handling of `Track.__init__` (track.py lines
106-109): a falsy value (missing, `null`, empty string, ...) leaves the
source `None`; a truthy one is fed to `LoadSource(...)`, which raises
`ValueError` unless it is one of the enum's string values. -/
def trackSource (fs : List (String × JVal)) : Except PyErr (Option LoadSource) :=
  let v := pyGetD fs "sourceName" .null
  if jTruthy v then
    match v with
    | .str s =>
      match LoadSource.ofValue s with
      | some ls => .ok (some ls)
      | none => .error .valueError
    | _ => .error .valueError
  else .ok none

/-- `Track.__init__` (track.py lines 83-114) applied to a decoded track
payload: `title` and `length` are mandatory (`KeyError` when missing),
`author`/`uri`/`identifier` use `.get`, `position` and `sourceName` are
handled as above, and `isStream`/`isSeekable` default to false/true.
A non-object payload raises `TypeError` at the first subscript. -/
def mkTrack (id : String) (data : JVal) : Except PyErr Track :=
  match data with
  | .obj fs => do
    let title ← requireKey fs "title"
    let lv ← requireKey fs "length"
    let len ← pyNum lv
    let posMs ← trackPosition fs
    let src ← trackSource fs
    .ok { id := id, title := title, author := pyGet fs "author",
          uri := pyGet fs "uri", identifier := pyGet fs "identifier",
          lengthMs := len, positionMs := posMs, source := src,
          stream := pyGetD fs "isStream" (.bool false),
          seekable := pyGetD fs "isSeekable" (.bool true) }
  | _ => .error .typeError

/-! ## Fetching tracks (src/magmatic/node.py, Node.fetch_track / fetch_tracks) -/

/-- A failure of `fetch_track`/`fetch_tracks`: either an HTTP error
propagated out of `ConnectionManager.request` (`NotFound` /
`HTTPException`) or a Python exception from `Track.__init__`. -/
inductive FetchError
  | req (e : ReqError)
  | py (e : PyErr)

/-- `Node.fetch_track` (node.py lines 1071-1097): requests the
`decodetrack` endpoint for the id (modelled by the oracle `server`,
standing for `self.request('GET', 'decodetrack', track=id)`) and builds
a `Track` from the response body. -/
def fetch_track (server : String → Except ReqError JVal) (id : String) :
    Except FetchError Track :=
  match server id with
  | .error e => .error (.req e)
  | .ok data =>
    match mkTrack id data with
    | .error e => .error (.py e)
    | .ok t => .ok t

/-- The `atomic=True` loop of `Node.fetch_tracks` (node.py lines
1135-1144): each id is fetched individually in order, `except NotFound:
pass` skips ids whose fetch raised `NotFound`, and every other exception
propagates. -/
def fetchTracksAtomic (server : String → Except ReqError JVal) :
    List String → Except FetchError (List Track)
  | [] => .ok []
  | id :: rest =>
    match fetch_track server id with
    | .ok t => (fetchTracksAtomic server rest).map (fun ts => t :: ts)
    | .error (.req (.notFound _)) => fetchTracksAtomic server rest
    | .error e => .error e

/-- The list comprehension of the batched branch (node.py line 1147):
`[Track(id=id, data=data, ...) for id, data in zip(ids, response)]`. -/
def mapTracks : List (String × JVal) → Except FetchError (List Track)
  | [] => .ok []
  | (id, data) :: rest =>
    match mkTrack id data with
    | .error e => .error (.py e)
    | .ok t => (mapTracks rest).map (fun ts => t :: ts)

/-- `Node.fetch_tracks` (node.py lines 1099-1147); `batch` models
`self.request('POST', 'decodetracks', data={'tracks': list(ids)})`,
whose JSON response is a list of decoded track payloads. -/
def fetch_tracks (server : String → Except ReqError JVal)
    (batch : List String → Except ReqError (List JVal))
    (ids : List String) (atomic : Bool) : Except FetchError (List Track) :=
  if atomic then
    fetchTracksAtomic server ids
  else
    match batch ids with
    | .error e => .error (.req e)
    | .ok resp => mapTracks (ids.zip resp)

/-- Whether a `fetch_track` outcome is a success or a `NotFound` failure
(the two outcomes `atomic=True` tolerates). -/
def okOrNotFound : Except FetchError Track → Bool
  | .ok _ => true
  | .error (.req (.notFound _)) => true
  | _ => false

/-- C8: `fetch_tracks` with `atomic=true` decodes ids one at a time in
order, skips every id whose individual fetch fails with `NotFound`, never
itself raises `NotFound`, and — when no id fails in any other way — its
result is the in-order list of successfully decoded tracks, possibly
shorter than the input. -/
theorem fetch_tracks_atomic_spec (server : String → Except ReqError JVal)
    (batch : List String → Except ReqError (List JVal)) (ids : List String) :
    (∀ r, fetch_tracks server batch ids true ≠ .error (.req (.notFound r))) ∧
    ((∀ id ∈ ids, okOrNotFound (fetch_track server id) = true) →
      fetch_tracks server batch ids true =
        .ok (ids.filterMap (fun id => (fetch_track server id).toOption))) := by
  have key : ∀ l : List String,
      (∀ r, fetchTracksAtomic server l ≠ .error (.req (.notFound r))) ∧
      ((∀ id ∈ l, okOrNotFound (fetch_track server id) = true) →
        fetchTracksAtomic server l =
          .ok (l.filterMap (fun id => (fetch_track server id).toOption))) := by
    intro l
    induction l with
    | nil =>
      refine ⟨fun r h => ?_, fun _ => rfl⟩
      rw [fetchTracksAtomic] at h
      cases h
    | cons id rest ih =>
      constructor
      · intro r h
        rw [fetchTracksAtomic] at h
        cases hft : fetch_track server id with
        | ok t =>
          rw [hft] at h
          cases hrec : fetchTracksAtomic server rest with
          | ok ts =>
            rw [hrec] at h
            simp [Except.map] at h
          | error e2 =>
            rw [hrec] at h
            simp only [Except.map] at h
            injection h with h
            exact ih.1 r (by rw [hrec, h])
        | error e =>
          cases e with
          | py e2 =>
            rw [hft] at h
            injection h with h
            cases h
          | req e2 =>
            cases e2 with
            | notFound r2 =>
              rw [hft] at h
              exact ih.1 r h
            | httpException r2 =>
              rw [hft] at h
              injection h with h
              cases h
            | runtimeError =>
              rw [hft] at h
              injection h with h
              cases h
      · intro hall
        rw [fetchTracksAtomic, List.filterMap_cons]
        have hrest := ih.2 (fun i hi => hall i (List.mem_cons_of_mem id hi))
        have hhd := hall id (List.mem_cons_self id rest)
        cases hft : fetch_track server id with
        | ok t =>
          rw [hrest]
          simp [Except.map, Except.toOption]
        | error e =>
          rw [hft] at hhd
          cases e with
          | py e2 => simp [okOrNotFound] at hhd
          | req e2 =>
            cases e2 with
            | notFound r2 =>
              rw [hrest]
              simp [Except.toOption]
            | httpException r2 => simp [okOrNotFound] at hhd
            | runtimeError => simp [okOrNotFound] at hhd
  exact ⟨fun r => (key ids).1 r, fun h => (key ids).2 h⟩

/-- The decode oracle of the C8 witness: id `"bad"` is not found, every
other id decodes to a well-formed track payload. -/
def c8Server : String → Except ReqError JVal := fun id =>
  if id = "bad" then .error (.notFound ⟨404, .null⟩)
  else .ok (.obj [("title", .str id), ("length", .num 1000)])

/-- Witness for C8: three ids of which the second is invalid yield
exactly the two successfully decoded tracks, in order, with no error. -/
theorem fetch_tracks_atomic_spec_witness :
    fetch_tracks c8Server (fun _ => .ok []) ["a", "bad", "c"] true =
      .ok (["a", "bad", "c"].filterMap
        (fun id => (fetch_track c8Server id).toOption)) :=
  (fetch_tracks_atomic_spec c8Server (fun _ => .ok []) ["a", "bad", "c"]).2
    (by decide)

theorem mapTracks_all_ok (ps : List (String × JVal))
    (h : ∀ p ∈ ps, ((mkTrack p.1 p.2).toOption).isSome = true) :
    mapTracks ps = .ok (ps.filterMap (fun p => (mkTrack p.1 p.2).toOption)) ∧
    (ps.filterMap (fun p => (mkTrack p.1 p.2).toOption)).length = ps.length := by
  induction ps with
  | nil => exact ⟨rfl, rfl⟩
  | cons p rest ih =>
    obtain ⟨pid, pdata⟩ := p
    have hhd := h (pid, pdata) (List.mem_cons_self _ rest)
    have ⟨ih1, ih2⟩ := ih (fun q hq => h q (List.mem_cons_of_mem _ hq))
    cases hmk : mkTrack pid pdata with
    | ok t =>
      have hsome : (mkTrack (pid, pdata).1 (pid, pdata).2).toOption = some t := by
        simp [hmk, Except.toOption]
      constructor
      · rw [mapTracks, hmk, ih1, List.filterMap_cons, hsome]
        simp [Except.map]
      · rw [List.filterMap_cons, hsome]
        simp only [List.length_cons, ih2]
    | error e =>
      simp [hmk, Except.toOption] at hhd

/-- C9: a successful `fetch_tracks` with `atomic=false` pairs the input
ids with the batched decode response positionally via `zip`, so the
result's length is the minimum of the id count and the response entry
count; a short response silently drops the extra ids instead of raising. -/
theorem fetch_tracks_batched_zip_spec (server : String → Except ReqError JVal)
    (batch : List String → Except ReqError (List JVal))
    (ids : List String) (resp : List JVal)
    (hresp : batch ids = .ok resp)
    (hparse : ∀ p ∈ ids.zip resp, ((mkTrack p.1 p.2).toOption).isSome = true) :
    fetch_tracks server batch ids false =
      .ok ((ids.zip resp).filterMap (fun p => (mkTrack p.1 p.2).toOption)) ∧
    ((ids.zip resp).filterMap (fun p => (mkTrack p.1 p.2).toOption)).length =
      min ids.length resp.length := by
  have hm := mapTracks_all_ok (ids.zip resp) hparse
  constructor
  · rw [fetch_tracks]
    simp only [Bool.false_eq_true, if_false, hresp]
    exact hm.1
  · rw [hm.2, List.length_zip]

/-- Witness for C9: three ids against a two-entry decode response yield
two tracks (`min 3 2`), paired in order, with no error. -/
theorem fetch_tracks_batched_zip_spec_witness :
    fetch_tracks c8Server
      (fun _ => .ok [.obj [("title", .str "x"), ("length", .num 1)],
                     .obj [("title", .str "y"), ("length", .num 2)]])
      ["a", "b", "c"] false =
      .ok ((["a", "b", "c"].zip
          [JVal.obj [("title", .str "x"), ("length", .num 1)],
           JVal.obj [("title", .str "y"), ("length", .num 2)]]).filterMap
        (fun p => (mkTrack p.1 p.2).toOption)) ∧
    ((["a", "b", "c"].zip
        [JVal.obj [("title", .str "x"), ("length", .num 1)],
         JVal.obj [("title", .str "y"), ("length", .num 2)]]).filterMap
      (fun p => (mkTrack p.1 p.2).toOption)).length = min 3 2 :=
  fetch_tracks_batched_zip_spec c8Server _ ["a", "b", "c"] _ rfl (by decide)

/-! ## Inbound message dispatch (src/magmatic/node.py, ConnectionManager.handle_message) -/

/-- `OpCode(value)` (handle_message line 253): `none` models the
`ValueError` raised for a value that is no member's value. -/
def parseOpCode : JVal → Option OpCode
  | .str "stats" => some .stats
  | .str "event" => some .event
  | .str "playerUpdate" => some .player_update
  | _ => none

/-- `EventType(value)` (handle_message line 284). -/
def parseEventType : JVal → Option EventType
  | .str "TrackStartEvent" => some .track_start
  | .str "TrackEndEvent" => some .track_end
  | .str "TrackStuckEvent" => some .track_stuck
  | .str "TrackExceptionEvent" => some .track_exception
  | .str "WebSocketClosedEvent" => some .websocket_closed
  | _ => none

/-- A parsed Lavalink player event, as built by the event classes in
`src/magmatic/events.py`. -/
inductive PlayerEvent
  | trackStart (trackId : JVal)
  | trackEnd (trackId : JVal) (reason : TrackEndReason)
  | trackStuck (trackId : JVal) (thresholdMs : Int)
  | trackException (trackId : JVal) (message : JVal) (severity : ErrorSeverity)
      (cause : JVal)
  | websocketClosed (code : JVal) (reason : JVal) (byRemote : JVal)

/-- An externally visible action performed by `handle_message`, in
program order: log calls, the stats snapshot update, a player state
update, the `player._track = None` assignment on track end, the awaited
`player.reconnect()` call, and the event dispatch (which covers both
`bot.dispatch` and the player's `on_*` handler). -/
inductive Action
  | logWarning
  | logDebug
  | logInfo
  | updateStats
  | updatePlayerState (gid : Int) (timeMs positionMs : Int)
  | clearTrack (gid : Int)
  | reconnect (gid : Int)
  | dispatchEvent (gid : Int) (ev : PlayerEvent)

/-- The field accesses of `MemoryStats.__init__` (stats.py lines 29-33). -/
def parseMemoryStats (v : JVal) : Except PyErr Unit :=
  match v with
  | .obj fs => do
    let _ ← requireKey fs "free"
    let _ ← requireKey fs "used"
    let _ ← requireKey fs "allocated"
    let _ ← requireKey fs "reservable"
    .ok ()
  | _ => .error .typeError

/-- The `frameStats` accesses of `Stats.__init__` (stats.py lines
104-107): a missing key falls back to a defaultdict yielding `-1`, a
present dict is indexed (`KeyError` when a field is missing), any other
present value is a `TypeError`. -/
def parseFrameStats (data : List (String × JVal)) : Except PyErr Unit :=
  match jlookup data "frameStats" with
  | none => .ok ()
  | some (.obj fs) => do
    let _ ← requireKey fs "sent"
    let _ ← requireKey fs "nulled"
    let _ ← requireKey fs "deficit"
    .ok ()
  | some _ => .error .typeError

/-- The field accesses of `Stats.__init__` (stats.py lines 92-108); the
float penalty arithmetic has no further control-flow effect and is
omitted. -/
def parseStats (data : List (String × JVal)) : Except PyErr Unit := do
  let _ ← requireKey data "uptime"
  let _ ← requireKey data "players"
  let _ ← requireKey data "playingPlayers"
  let mem ← requireKey data "memory"
  let _ ← parseMemoryStats mem
  let cpu ← requireKey data "cpu"
  match cpu with
  | .obj cf => do
    let _ ← requireKey cf "cores"
    let _ ← requireKey cf "systemLoad"
    let _ ← requireKey cf "lavalinkLoad"
    parseFrameStats data
  | _ => .error .typeError

/-- `Player._update_state` (player.py lines 255-257): `data['time']`
(`KeyError` when absent) and `data.get('position', 0)`, both divided by
1000 (requiring numbers). -/
def parseUpdateState : JVal → Except PyErr (Int × Int)
  | .obj fs => do
    let tv ← requireKey fs "time"
    let t ← pyNum tv
    let p ← match jlookup fs "position" with
      | none => Except.ok (0 : Int)
      | some v => pyNum v
    .ok (t, p)
  | _ => .error .typeError

/-- The `exception` payload accesses of `TrackExceptionEvent.__init__`
(events.py lines 173-178): `message`, `severity` (parsed by
`ErrorSeverity(...)`), `cause`. -/
def parseExceptionPayload (v : JVal) : Except PyErr (JVal × ErrorSeverity × JVal) :=
  match v with
  | .obj fs => do
    let msg ← requireKey fs "message"
    let sv ← requireKey fs "severity"
    let sev ← match sv with
      | .str s =>
        match ErrorSeverity.ofValue s with
        | some es => Except.ok es
        | none => Except.error PyErr.valueError
      | _ => Except.error PyErr.valueError
    let cause ← requireKey fs "cause"
    .ok (msg, sev, cause)
  | _ => .error .typeError

/-- The `player_update` branch of `handle_message` (node.py lines
277-281): `data['state']` raises `KeyError` when absent; the state dict
is then logged and fed to `Player._update_state`. -/
def handlePlayerUpdate (gid : Int) (data : List (String × JVal)) :
    Except PyErr (List Action) :=
  match jlookup data "state" with
  | none => .error (.keyError "state")
  | some state =>
    match parseUpdateState state with
    | .error e => .error e
    | .ok (t, p) => .ok [.logDebug, .updatePlayerState gid t p]

/-- The `event` branch of `handle_message` (node.py lines 283-309): the
event sub-type is parsed with `EventType(data['type'])`, the
type-specific fields are read (raising `KeyError`/`ValueError`/`TypeError`
as the event constructors do), and the constructed event is dispatched.
For `WebSocketClosedEvent` the source logs, awaits `player.reconnect()`
to completion and only then builds and dispatches the close event; in
this `Except` embedding an error from the `code`/`reason` reads drops
the log/reconnect prefix that the source would already have performed. -/
def handleEvent (gid : Int) (data : List (String × JVal)) :
    Except PyErr (List Action) :=
  match jlookup data "type" with
  | none => .error (.keyError "type")
  | some tv =>
    match parseEventType tv with
    | none => .error .valueError
    | some EventType.track_start =>
      match jlookup data "track" with
      | none => .error (.keyError "track")
      | some tid => .ok [.dispatchEvent gid (.trackStart tid)]
    | some EventType.track_end =>
      match jlookup data "track" with
      | none => .error (.keyError "track")
      | some tid =>
        match jlookup data "reason" with
        | none => .error (.keyError "reason")
        | some (.str s) =>
          match TrackEndReason.ofValue s with
          | some r => .ok [.clearTrack gid, .dispatchEvent gid (.trackEnd tid r)]
          | none => .error .valueError
        | some _ => .error .valueError
    | some EventType.track_stuck =>
      match jlookup data "track" with
      | none => .error (.keyError "track")
      | some tid =>
        match jlookup data "thresholdMs" with
        | none => .error (.keyError "thresholdMs")
        | some mv =>
          match pyNum mv with
          | .error e => .error e
          | .ok n => .ok [.dispatchEvent gid (.trackStuck tid n)]
    | some EventType.track_exception =>
      match jlookup data "track" with
      | none => .error (.keyError "track")
      | some tid =>
        match jlookup data "exception" with
        | none => .error (.keyError "exception")
        | some ev =>
          match parseExceptionPayload ev with
          | .error e => .error e
          | .ok (msg, sev, cause) =>
            .ok [.dispatchEvent gid (.trackException tid msg sev cause)]
    | some EventType.websocket_closed =>
      match jlookup data "code" with
      | none => .error (.keyError "code")
      | some code =>
        match jlookup data "reason" with
        | none => .error (.keyError "reason")
        | some reason =>
          .ok [.logInfo, .reconnect gid,
            .dispatchEvent gid
              (.websocketClosed code reason (pyGetD data "byRemote" (.bool false)))]

/-- `ConnectionManager.handle_message` (node.py lines 251-309):
`OpCode(data['op'])` wrapped in `try/except KeyError/ValueError` (the
only caught exceptions), the `stats` short-circuit, the `guildId`
presence check, `int(data['guildId'])`, the `fail_if_not_exists=True`
player lookup whose `PlayerNotFound` is swallowed by `return`, and the
per-op handling.  `players` is the set of guild ids with a registered
player. -/
def handle_message (players : List Int) (data : List (String × JVal)) :
    Except PyErr (List Action) :=
  match jlookup data "op" with
  | none => .ok [.logWarning]
  | some v =>
    match parseOpCode v with
    | none => .ok [.logWarning]
    | some op =>
      if op = OpCode.stats then
        match parseStats data with
        | .error e => .error e
        | .ok _ => .ok [.updateStats, .logDebug]
      else
        match jlookup data "guildId" with
        | none => .ok [.logWarning]
        | some gv =>
          match pyInt gv with
          | .error e => .error e
          | .ok gid =>
            if gid ∈ players then
              match op with
              | .player_update => handlePlayerUpdate gid data
              | .event => handleEvent gid data
              | .stats => .ok []
            else .ok []

/-- Scans an action trace left to right and checks that every dispatch of
a `websocketClosed` event to a guild is preceded by a completed
`reconnect` of that same guild (`seen` collects reconnected guilds). -/
def reconAux (seen : List Int) : List Action → Bool
  | [] => true
  | Action.reconnect g :: rest => reconAux (g :: seen) rest
  | Action.dispatchEvent g (PlayerEvent.websocketClosed _ _ _) :: rest =>
    if g ∈ seen then reconAux seen rest else false
  | _ :: rest => reconAux seen rest

/-- Every `websocketClosed` dispatch in the trace is preceded by a
`reconnect` of the same guild. -/
def reconnectPrecedesClose (acts : List Action) : Bool :=
  reconAux [] acts

/-- C2 counterexample: a `playerUpdate` message for a registered player
(guild 1) with no `state` field makes `handle_message` raise `KeyError`
— the `try/except` at node.py lines 252-259 only covers the op-code
parse, so the claim that a missing required field is logged and dropped
(never raised) is false. -/
theorem handle_message_missing_state_counterexample :
    handle_message [1] [("op", .str "playerUpdate"), ("guildId", .str "1")]
      = .error (.keyError "state") := by
  rfl

/-- C2 amended: a message with a missing `op` key or an unrecognized op
code value is logged and dropped; a `playerUpdate`/`event` message with
no `guildId` is logged and dropped; one whose guild id has no registered
player is dropped silently; but a `playerUpdate` for a registered player
with no `state` field, or an `event` for a registered player with no
`type` field, raises `KeyError` out of `handle_message` instead of being
dropped. -/
theorem handle_message_dispatch_spec (players : List Int)
    (data : List (String × JVal)) :
    (jlookup data "op" = none → handle_message players data = .ok [.logWarning]) ∧
    (∀ v, jlookup data "op" = some v → parseOpCode v = none →
      handle_message players data = .ok [.logWarning]) ∧
    (∀ v op, jlookup data "op" = some v → parseOpCode v = some op →
      op ≠ OpCode.stats → jlookup data "guildId" = none →
      handle_message players data = .ok [.logWarning]) ∧
    (∀ v op gv gid, jlookup data "op" = some v → parseOpCode v = some op →
      op ≠ OpCode.stats → jlookup data "guildId" = some gv →
      pyInt gv = .ok gid → gid ∉ players →
      handle_message players data = .ok []) ∧
    (∀ v gv gid, jlookup data "op" = some v →
      parseOpCode v = some OpCode.player_update →
      jlookup data "guildId" = some gv → pyInt gv = .ok gid → gid ∈ players →
      jlookup data "state" = none →
      handle_message players data = .error (.keyError "state")) ∧
    (∀ v gv gid, jlookup data "op" = some v → parseOpCode v = some OpCode.event →
      jlookup data "guildId" = some gv → pyInt gv = .ok gid → gid ∈ players →
      jlookup data "type" = none →
      handle_message players data = .error (.keyError "type")) := by
  refine ⟨fun h1 => ?_, fun v h1 h2 => ?_, fun v op h1 h2 h3 h4 => ?_,
    fun v op gv gid h1 h2 h3 h4 h5 h6 => ?_,
    fun v gv gid h1 h2 h3 h4 h5 h6 => ?_,
    fun v gv gid h1 h2 h3 h4 h5 h6 => ?_⟩
  · simp [handle_message, h1]
  · simp [handle_message, h1, h2]
  · simp [handle_message, h1, h2, h3, h4]
  · simp [handle_message, h1, h2, h3, h4, h5, h6]
  · simp [handle_message, handlePlayerUpdate, h1, h2, h3, h4, h5, h6]
  · simp [handle_message, handleEvent, h1, h2, h3, h4, h5, h6]

/-- Witness for C2's amended theorem: the empty message has no `op` key
and is logged and dropped. -/
theorem handle_message_dispatch_spec_witness :
    handle_message [] [] = .ok [.logWarning] :=
  (handle_message_dispatch_spec [] []).1 rfl

theorem handlePlayerUpdate_recon (gid : Int) (data : List (String × JVal))
    (acts : List Action) (h : handlePlayerUpdate gid data = .ok acts) :
    reconnectPrecedesClose acts = true := by
  unfold handlePlayerUpdate at h
  repeat' split at h
  all_goals first
    | (injection h with h; subst h; rfl)
    | injection h

theorem handleEvent_recon (gid : Int) (data : List (String × JVal))
    (acts : List Action) (h : handleEvent gid data = .ok acts) :
    reconnectPrecedesClose acts = true := by
  unfold handleEvent at h
  repeat' split at h
  all_goals first
    | (injection h with h; subst h;
       simp [reconnectPrecedesClose, reconAux])
    | injection h

/-- C4: whenever `handle_message` completes and its trace dispatches a
`websocketClosed` event to a registered player's guild, the awaited
`player.reconnect()` call appears (completed) earlier in the trace — the
reconnect is initiated and finished before observers see the close
event. -/
theorem handle_message_reconnect_before_close (players : List Int)
    (data : List (String × JVal)) (acts : List Action)
    (h : handle_message players data = .ok acts) :
    reconnectPrecedesClose acts = true := by
  unfold handle_message at h
  repeat' split at h
  all_goals first
    | (injection h with h; subst h; rfl)
    | injection h
    | exact handlePlayerUpdate_recon _ _ _ h
    | exact handleEvent_recon _ _ _ h

/-- Witness for C4: a concrete `WebSocketClosedEvent` message for
registered guild 5 produces the trace log → reconnect → dispatch, which
passes the ordering check. -/
theorem handle_message_reconnect_before_close_witness :
    reconnectPrecedesClose [Action.logInfo, Action.reconnect 5,
      Action.dispatchEvent 5 (PlayerEvent.websocketClosed (JVal.num 4000)
        (JVal.str "x") (JVal.bool false))] = true :=
  handle_message_reconnect_before_close [5]
    [("op", .str "event"), ("guildId", .num 5),
     ("type", .str "WebSocketClosedEvent"), ("code", .num 4000),
     ("reason", .str "x")] _ rfl

/-! ## Connecting and resuming (src/magmatic/node.py, ConnectionManager.connect) -/

/-- The connection state of a `ConnectionManager` relevant to `connect`:
whether a live websocket exists (`is_connected`), whether a listener task
is running, and the resume key — `os.urandom(8).hex()` when the manager
was built with `resume=True`, `None` otherwise (node.py line 136), fixed
at construction and never rotated.  `everConnected` is a ghost flag, not
read by any modelled code, recording whether a successful connect has
happened before; the claim's "very first successful connect" is stated
with it. -/
structure ConnState where
  wsOpen : Bool
  listenerActive : Bool
  resumeKey : Option String
  everConnected : Bool

/-- Externally visible actions of `ConnectionManager.connect`. -/
inductive ConnAction
  | closeWs
  | cancelListener
  | startListener
  | sendResume (key : String) (timeout : Nat)
  | dispatchNodeReady
deriving DecidableEq, Repr

/-- `ConnectionManager.send_resume` (node.py lines 442-450): raises
`RuntimeError` when there is no resume key, otherwise sends
`{'op': 'configureResuming', 'key': key, 'timeout': 60}`. -/
def send_resume : Option String → Except PyErr ConnAction
  | none => .error .valueError
  | some k => .ok (.sendResume k 60)

/-- The outcome of one `ws_connect` attempt (node.py lines 207-224):
success, a `WSServerHandshakeError` with its HTTP status, or any other
exception. -/
inductive WsAttempt
  | ok
  | handshakeError (status : Nat)
  | otherError

/-- The typed failures `connect` can raise. -/
inductive ConnFailure
  | authorizationFailure
  | handshakeFailure
  | connectionFailure
deriving DecidableEq, Repr

/-- The result of a `connect` call. -/
inductive ConnectResult
  | noop
  | failed (e : ConnFailure)
  | immediateDisconnect (acts : List ConnAction)
  | success (acts : List ConnAction)

/-- The actions of `connect`'s success path up to starting the listener
(node.py lines 204-230): close any live websocket, cancel a still
running listener, start a fresh listener task. -/
def connectPre (st : ConnState) : List ConnAction :=
  (if st.wsOpen then [ConnAction.closeWs] else [])
    ++ (if st.listenerActive then [ConnAction.cancelListener] else [])
    ++ [ConnAction.startListener]

/-- The resume step of `connect` (node.py lines 236-237): `send_resume()`
is awaited exactly when `self._ws_resume_key is not None`. -/
def connectResumeActs (st : ConnState) : List ConnAction :=
  match st.resumeKey with
  | none => []
  | some _ =>
    match send_resume st.resumeKey with
    | .ok a => [a]
    | .error _ => []

/-- `ConnectionManager.connect` (node.py lines 183-239): an existing
connection is a no-op unless `reconnect`, otherwise it is closed; the
`ws_connect` outcome `attempt` maps a 401 handshake rejection to
`AuthorizationFailure`, other handshake errors to `HandshakeFailure` and
any other exception to `ConnectionFailure`; on success a running
listener is cancelled and a fresh one started, and — whenever the
websocket is still connected (`aliveAfter`) — the resume step runs
before dispatching `magmatic_node_ready`.  No branch consults how many
successful connects happened before. -/
def ConnectionManager.connect (st : ConnState) (reconnect : Bool)
    (attempt : WsAttempt) (aliveAfter : Bool) : ConnectResult × ConnState :=
  if st.wsOpen && !reconnect then (.noop, st)
  else
    match attempt with
    | .handshakeError status =>
      if status = 401 then (.failed .authorizationFailure, { st with wsOpen := false })
      else (.failed .handshakeFailure, { st with wsOpen := false })
    | .otherError => (.failed .connectionFailure, { st with wsOpen := false })
    | .ok =>
      if !aliveAfter then
        (.immediateDisconnect (connectPre st),
         { st with wsOpen := false, listenerActive := true, everConnected := true })
      else
        (.success (connectPre st ++ connectResumeActs st ++ [.dispatchNodeReady]),
         { st with wsOpen := true, listenerActive := true, everConnected := true })

theorem sendResume_mem_connectActs (st : ConnState) (k : String) (t : Nat) :
    (ConnAction.sendResume k t ∈
      connectPre st ++ connectResumeActs st ++ [ConnAction.dispatchNodeReady])
    ↔ (st.resumeKey = some k ∧ t = 60) := by
  constructor
  · intro hmem
    simp only [List.mem_append, List.mem_singleton] at hmem
    rcases hmem with (hpre | hres) | hready
    · exfalso
      revert hpre
      cases hb : st.wsOpen <;> cases hl : st.listenerActive <;>
        simp [connectPre, hb, hl]
    · unfold connectResumeActs at hres
      cases hk : st.resumeKey with
      | none =>
        rw [hk] at hres
        simp at hres
      | some key =>
        rw [hk] at hres
        simp [send_resume, ConnAction.sendResume.injEq] at hres
        obtain ⟨h1, h2⟩ := hres
        subst h1
        exact ⟨rfl, h2⟩
    · simp at hready
  · rintro ⟨hk, ht⟩
    subst ht
    simp [connectResumeActs, hk, send_resume]

/-- C3 counterexample: on the very first successful connect of a session
(`everConnected = false`) with resumption enabled, `connect` does send
the `configureResuming` command — the resume key exists from
construction and node.py line 236 checks only `_ws_resume_key is not
None`, so the claim that no resume command is sent on the first
successful connect is false. -/
theorem connect_first_resume_counterexample :
    (ConnState.mk false false (some "k") false).everConnected = false ∧
    (ConnectionManager.connect (ConnState.mk false false (some "k") false)
        true WsAttempt.ok true).1
      = .success [.startListener, .sendResume "k" 60, .dispatchNodeReady] := by
  exact ⟨rfl, rfl⟩

/-- C3 amended: on every successful connect — the very first included —
the resume command is sent exactly when resumption is enabled (the
resume key is present), with that key and a 60 second timeout; the
first-versus-later distinction plays no role. -/
theorem connect_resume_iff_key (st : ConnState) (reconnect : Bool)
    (attempt : WsAttempt) (aliveAfter : Bool) (acts : List ConnAction)
    (st' : ConnState)
    (h : ConnectionManager.connect st reconnect attempt aliveAfter
      = (.success acts, st')) :
    ∀ k t, (ConnAction.sendResume k t ∈ acts ↔ (st.resumeKey = some k ∧ t = 60)) := by
  intro k t
  unfold ConnectionManager.connect at h
  repeat' split at h
  all_goals cases h
  exact sendResume_mem_connectActs st k t

/-- Witness for C3's amended theorem at the counterexample's input:
the command sent is `configureResuming` with key `"k"` and timeout 60. -/
theorem connect_resume_iff_key_witness :
    ConnAction.sendResume "k" 60 ∈
      [ConnAction.startListener, ConnAction.sendResume "k" 60,
       ConnAction.dispatchNodeReady] :=
  (connect_resume_iff_key (ConnState.mk false false (some "k") false)
      true WsAttempt.ok true _ _ rfl "k" 60).2 ⟨rfl, rfl⟩

end Magmatic
